import Mathlib

/-!
Verification of the Open-Sora-Plan diffusion-transformer core.

Shallow embedding of:
* `opensora/models/diffusion/opensora_v1_5/modeling_opensora.py`
  (class `OpenSoraT2V_v1_5`): constructor validation, the patchify frame
  rule, mask slicing and bias conversion, the skip-connection stack of
  `_operate_on_enc` / `_operate_on_mid` / `_operate_on_dec`, and the
  unpatchify index permutation of `_get_output_for_patched_inputs`.
* `opensora/models/diffusion/udit/modeling_udit.py` (class `UDiTT2V`):
  the even-frame assertion and the downsample/upsample extent arithmetic
  of `forward`.
* `mindspeed_mm/models/ae/base.py` (class `AEModel`): the attribute
  discipline of its `encode` / `decode` delegation.

Machine integers are modelled as `Nat`/`Int` (all quantities involved are
exact small integers; no overflow is reachable); fallible code is modelled
with `Except`.
-/

namespace OpenSoraPlan

/-! ## Patchify frame / height / width arithmetic

`OpenSoraT2V_v1_5.forward`, modeling_opensora.py line 222:
`frame = ((frame - 1) // patch_size_t + 1) if frame % 2 == 1 else frame // patch_size_t`
and line 223: `height, width = H // patch_size, W // patch_size`. -/

/-- Frame-axis patchify rule of `OpenSoraT2V_v1_5.forward` (line 222). -/
def patchifyFrame (patchSizeT frame : Nat) : Nat :=
  if frame % 2 == 1 then (frame - 1) / patchSizeT + 1 else frame / patchSizeT

/-- Spatial-axis patchify rule of `OpenSoraT2V_v1_5.forward` (line 223). -/
def patchifySpatial (patchSize x : Nat) : Nat := x / patchSize

/-- The even-frame assertion of `UDiTT2V.forward` (modeling_udit.py line 408):
`assert frame % 2 == 0 and use_image_num == 0`; an odd frame count is fatal. -/
def uditFrameCheck (frame : Nat) : Except String Nat :=
  if frame % 2 == 0 then Except.ok frame else Except.error "AssertionError"

/-! ## Output shape of `OpenSoraT2V_v1_5.forward`

`_get_output_for_patched_inputs` (lines 402-409) reshapes the token
sequence to `(-1, frame, height, width, pt, p, p, c)`, permutes with
`einsum "nthwopqc->nctohpwq"` and folds into
`(-1, out_channels, frame*pt, height*p, width*p)`.  The transformer
blocks (in `modules.py`, absent from the sources; spec section 4.3:
"returns updated tokens of the same shape") preserve the token-sequence
shape, so the output extents are determined by lines 222-223 and 402-409. -/

structure LatentShape where
  batch : Nat
  channel : Nat
  frame : Nat
  height : Nat
  width : Nat
deriving DecidableEq, Repr

/-- Internal token-sequence length of one forward pass:
`frame' * height' * width'` after the patchify rules of lines 222-223. -/
def tokenSeqLen (patchSizeT patchSize : Nat) (s : LatentShape) : Nat :=
  patchifyFrame patchSizeT s.frame * patchifySpatial patchSize s.height *
    patchifySpatial patchSize s.width

/-- Output shape of `OpenSoraT2V_v1_5.forward`: the final reshape of
`_get_output_for_patched_inputs` (lines 406-409) applied to the patchified
extents of lines 222-223. -/
def forwardOutputShape (patchSizeT patchSize outChannels : Nat)
    (s : LatentShape) : LatentShape :=
  { batch := s.batch
    channel := outChannels
    frame := patchifyFrame patchSizeT s.frame * patchSizeT
    height := patchifySpatial patchSize s.height * patchSize
    width := patchifySpatial patchSize s.width * patchSize }

/-! ## Constructor validation of `OpenSoraT2V_v1_5.__init__`

Lines 80-82:
`assert len(self.config.num_layers) == len(self.config.sparse_n)`
`assert len(self.config.num_layers) % 2 == 1`
`assert all([i % 2 == 0 for i in self.config.num_layers])`
On success construction proceeds without modifying either list. -/

/-- Stage-configuration validation of `OpenSoraT2V_v1_5.__init__`
(lines 80-82); returns the two lists unchanged when all asserts pass. -/
def checkStageConfig (numLayers sparseN : List Nat) :
    Except String (List Nat × List Nat) :=
  if numLayers.length ≠ sparseN.length then
    Except.error "AssertionError: len(num_layers) != len(sparse_n)"
  else if numLayers.length % 2 ≠ 1 then
    Except.error "AssertionError: len(num_layers) % 2 != 1"
  else if ¬ numLayers.all (fun i => i % 2 == 0) then
    Except.error "AssertionError: odd per-stage block count"
  else
    Except.ok (numLayers, sparseN)

/-! ## UDiT downsample / upsample extent arithmetic

`UDiTT2V.forward`: before each downsample the padding is recorded
(`pad_h_1, pad_w_1 = height % 2, width % 2`, line 496; likewise line 531)
and the extents become `(height + pad_h) // 2, (width + pad_w) // 2`
(lines 499, 534); each mirrored upsample restores
`height * 2 - pad_h, width * 2 - pad_w` (lines 569, 605), pairing
`down1_2` with `up2_1` and `down2_3` with `up3_2`. -/

/-- Padding recorded before a UDiT downsample (lines 496, 531). -/
def downPad (x : Nat) : Nat := x % 2

/-- Extent after a UDiT downsample (lines 499, 534). -/
def downExtent (x : Nat) : Nat := (x + x % 2) / 2

/-- Extent after the mirrored UDiT upsample given the recorded padding
(lines 569, 605). -/
def upExtent (x pad : Nat) : Nat := x * 2 - pad

/-- The spatial extents threaded through the whole U: two downsamples with
recorded paddings, then the two mirrored upsamples in reverse order, as in
`UDiTT2V.forward` lines 496-605. -/
def uditSpatialRoundTrip (h w : Nat) : Nat × Nat :=
  let padH1 := downPad h
  let padW1 := downPad w
  let h1 := downExtent h
  let w1 := downExtent w
  let padH2 := downPad h1
  let padW2 := downPad w1
  let h2 := downExtent h1
  let w2 := downExtent w1
  let h3 := upExtent h2 padH2
  let w3 := upExtent w2 padW2
  (upExtent h3 padH1, upExtent w3 padW1)

/-! ## Attention-mask slicing and bias conversion

`OpenSoraT2V_v1_5.forward`, lines 188-218.  The spatial keep-mask
(shape b, frame, h, w) has its frame axis sliced by
`attention_mask[:, :frame * world_size]` under sequence parallelism and by
`attention_mask[:, :frame]` otherwise (lines 196-202), is max-pooled with
kernel = stride = (patch_size_t, patch_size, patch_size) (lines 205-209),
and is converted to an additive bias by
`(1 - attention_mask.bool()) * -10000.0` (line 211).  The text mask is only
converted, `(1 - encoder_attention_mask) * -10000.0` (lines 216-218); no
slicing is applied to it.  A frame of the keep-mask is modelled as a boolean
function of (height, width); the bias values are exact integers 0 and
-10000, so `Int` models them without loss. -/

/-- Frame list indexing; out-of-range reads never occur in the modelled
windows and default to a discard-everything frame. -/
def frameAt (frames : List (Nat → Nat → Bool)) (i : Nat) : Nat → Nat → Bool :=
  frames.getD i (fun _ _ => false)

/-- World-size-aware frame-window slicing of `forward` lines 196-202:
keep the first `frame * world_size` frames under sequence parallelism,
else the first `frame` frames. -/
def sliceFrameWindow {α : Type} (seqParallel : Bool) (worldSize frame : Nat)
    (l : List α) : List α :=
  if seqParallel then l.take (frame * worldSize) else l.take frame

/-- One entry of the max-pooled keep-mask (`F.max_pool3d` with
kernel = stride = (pt, p, p), lines 205-209): the window maximum of a 0/1
mask is 1 iff some window entry is 1. -/
def pooledKeep (pt p : Nat) (frames : List (Nat → Nat → Bool))
    (t h w : Nat) : Bool :=
  (List.range pt).any fun o => (List.range p).any fun i =>
    (List.range p).any fun j =>
      frameAt frames (t * pt + o) (h * p + i) (w * p + j)

/-- One entry of the additive attention bias (line 211):
`(1 - pooled.bool()) * -10000.0`, i.e. 0 for keep and -10000 for discard. -/
def spatialBiasEntry (pt p : Nat) (frames : List (Nat → Nat → Bool))
    (t h w : Nat) : Int :=
  if pooledKeep pt p frames t h w then 0 else -10000

/-- The complete spatial-mask pipeline of `forward` lines 196-211:
frame-window slicing, then max-pooling, then bias conversion. -/
def spatialMaskPipelineEntry (seqParallel : Bool) (worldSize frame pt p : Nat)
    (frames : List (Nat → Nat → Bool)) (t h w : Nat) : Int :=
  spatialBiasEntry pt p (sliceFrameWindow seqParallel worldSize frame frames) t h w

/-- Text-mask bias conversion of `forward` lines 216-218:
`(1 - encoder_attention_mask) * -10000.0`, applied entrywise to the whole
mask, with no slicing. -/
def encoderMaskToBias (mask : List Nat) : List Int :=
  mask.map (fun x => if x ≠ 0 then (0 : Int) else -10000)

/-- Processing of the optional text mask by `forward` lines 214-218.
Line 215 is the unconditional debug line
`print('encoder_attention_mask', encoder_attention_mask.shape)`, which
dereferences `.shape` before the `is not None` guard of line 216 runs; a
`None` mask therefore raises instead of being skipped. -/
def processEncoderMask (encMask : Option (List Nat)) :
    Except String (Option (List Int)) :=
  match encMask with
  | none => Except.error "AttributeError: NoneType has no attribute shape"
  | some m => Except.ok (some (encoderMaskToBias m))

/-! ## Skip-connection stack of `OpenSoraT2V_v1_5`

`_operate_on_enc` (lines 268-305) initializes
`skip_connections = [hidden_states]` before any stage runs, then appends
the output of each of the first `len(num_layers) // 2` stages.
`_operate_on_mid` (lines 307-340) runs stage `len // 2` without touching
the stack.  `_operate_on_dec` (lines 343-380) iterates over
`transformer_blocks[-(len(num_layers) // 2):]` and per stage pops one
entry (`skip_connections.pop()`, from the end), concatenates and projects
it into the hidden state, and never pushes.  Hidden states and blocks are
abstract; only block sequencing and the stack discipline are modelled. -/

/-- Sequential application of one stage's blocks (the inner loops of
`_operate_on_enc` / `_operate_on_mid` / `_operate_on_dec`). -/
def runStage {H B : Type} (apply : B → H → H) (stage : List B) (h : H) : H :=
  stage.foldl (fun hh b => apply b hh) h

/-- The stage loop of `_operate_on_enc` after the initial
`skip_connections = [hidden_states]`: run each stage, append its output. -/
def encStages {H B : Type} (apply : B → H → H) :
    List (List B) → H → H × List H
  | [], h => (h, [])
  | s :: rest, h =>
    ((encStages apply rest (runStage apply s h)).1,
      runStage apply s h :: (encStages apply rest (runStage apply s h)).2)

/-- `_operate_on_enc` (lines 268-305): the skip stack is born holding the
pre-encoder hidden state and gains one entry per encoder stage. -/
def operateOnEnc {H B : Type} (apply : B → H → H) (stages : List (List B))
    (h : H) : H × List H :=
  ((encStages apply stages h).1, h :: (encStages apply stages h).2)

/-- Python `list.pop()`: remove and return the last element; `none` models
the IndexError on an empty list. -/
def popLast {H : Type} (l : List H) : Option (H × List H) :=
  match l.getLast? with
  | none => none
  | some x => some (x, l.dropLast)

/-- `_operate_on_dec` (lines 343-380): each decoder stage pops one skip
entry, combines it with the hidden state (`torch.cat` plus the
skip_norm_linear projection, abstracted as `combine`) and runs its blocks;
popping an empty stack is a fatal IndexError. -/
def decStages {H B : Type} (apply : B → H → H) (combine : H → H → H) :
    List (List B) → H → List H → Except String (H × List H)
  | [], h, skips => Except.ok (h, skips)
  | s :: rest, h, skips =>
    match popLast skips with
    | none => Except.error "IndexError: pop from empty list"
    | some (sk, skips2) =>
        decStages apply combine rest (runStage apply s (combine h sk)) skips2

/-- Python slicing `l[-n:]`, as used for
`transformer_blocks[-(len(num_layers) // 2):]`; note `l[-0:]` is the whole
list. -/
def lastSlice {α : Type} (n : Nat) (l : List α) : List α :=
  if n = 0 then l else l.drop (l.length - n)

/-- The skip-stack behaviour of one whole forward pass
(`forward` lines 234-250 dispatching to `_operate_on_enc`,
`_operate_on_mid`, `_operate_on_dec`): returns the final hidden state and
whatever remains on the skip stack. -/
def forwardStack {H B : Type} (apply : B → H → H) (combine : H → H → H)
    (blocks : List (List B)) (h : H) : Except String (H × List H) :=
  decStages apply combine (lastSlice (blocks.length / 2) blocks)
    (runStage apply (blocks.getD (blocks.length / 2) [])
      (operateOnEnc apply (blocks.take (blocks.length / 2)) h).1)
    (operateOnEnc apply (blocks.take (blocks.length / 2)) h).2

/-! ## Patchify / unpatchify index maps

`_get_output_for_patched_inputs` (lines 395-410) takes the token sequence
(batch, S, D) with `S = frame' * height' * width'` and, after `proj_out`,
`D = patch_size_t * patch_size * patch_size * out_channels`; it reshapes to
(batch, frame', height', width', pt, p, p, c) — a row-major split of S into
(t, h, w) and of D into (o, p, q, ch) — permutes with
`einsum "nthwopqc->nctohpwq"` and folds into
(batch, c, frame'*pt, height'*p, width'*p), so the value at token s,
feature j lands at voxel (ch, t*pt + o, h*ph + p, w*pw + q). -/

/-- Token-grid extents and patch sizes of one forward pass:
tT/hT/wT are frame'/height'/width', pt/ph/pw the patch sizes, c the output
channel count. -/
structure PatchGrid where
  tT : Nat
  hT : Nat
  wT : Nat
  pt : Nat
  ph : Nat
  pw : Nat
  c : Nat
deriving DecidableEq, Repr

/-- Position semantics of the unpatchify of
`_get_output_for_patched_inputs` (lines 402-409): token index s and
intra-token feature index j are decoded row-major and mapped to the output
voxel (channel, time, height, width). -/
def unpatchifyPos (g : PatchGrid) (s j : Nat) : Nat × Nat × Nat × Nat :=
  (j % g.c,
   s / (g.hT * g.wT) * g.pt + j / (g.c * g.pw * g.ph),
   s / g.wT % g.hT * g.ph + j / (g.c * g.pw) % g.ph,
   s % g.wT * g.pw + j / g.c % g.pw)

/-- Modelled from the spec: the Patch Embedder's extraction order
(`PatchEmbed2D` lives in `opensora_v1_5/modules.py`, which is not among the
sources).  Spec section 4.1 and the glossary: non-overlapping 3D patch
extraction flattening each block into one token — voxel (ch, τ, η, ω) lands
in token (τ/pt, η/ph, ω/pw) at intra-patch offset (τ%pt, η%ph, ω%pw),
tokens and offsets ordered row-major with channel fastest, matching the
layout the Output Head folds back. -/
def patchifyPos (g : PatchGrid) (ch τ η ω : Nat) : Nat × Nat :=
  ((τ / g.pt * g.hT + η / g.ph) * g.wT + ω / g.pw,
   ((τ % g.pt * g.ph + η % g.ph) * g.pw + ω % g.pw) * g.c + ch)

/-! ## AEModel attribute discipline

`mindspeed_mm/models/ae/base.py`: `AEModel.__init__` (lines 26-29) stores
the constructed backbone only in the attribute `ae` (and the config in
`config`); `encode` (line 35) and `decode` (line 38) delegate to the
attribute `model`, which no method ever assigns, so Python attribute lookup
raises AttributeError there. -/

inductive AEAttr : Type
  | config : AEAttr
  | ae : AEAttr
  | model : AEAttr
deriving DecidableEq, Repr

/-- The attributes `AEModel.__init__` assigns (base.py lines 26-29). -/
def aeModelAssigned : List AEAttr := [AEAttr.config, AEAttr.ae]

/-- Python attribute lookup on a constructed AEModel: assigned attributes
resolve to their value, anything else raises AttributeError. -/
def aeGetAttr {α : Type} (curVal : AEAttr → α) (a : AEAttr) :
    Except String α :=
  if a ∈ aeModelAssigned then Except.ok (curVal a)
  else Except.error "AttributeError: AEModel object has no attribute model"

/-- `AEModel.encode` (base.py line 35): `return self.model.encode(x)`. -/
def aeModelEncode {α β : Type} (curVal : AEAttr → α) (enc : α → β) :
    Except String β :=
  (aeGetAttr curVal AEAttr.model).map enc

/-- `AEModel.decode` (base.py line 38): `return self.model.decode(x)`. -/
def aeModelDecode {α β : Type} (curVal : AEAttr → α) (dec : α → β) :
    Except String β :=
  (aeGetAttr curVal AEAttr.model).map dec

end OpenSoraPlan

namespace OpenSoraPlan

/-- Round trip of one UDiT down/up pair: the mirrored upsample with the
recorded padding restores the original extent. -/
theorem downUp_roundTrip (x : Nat) : upExtent (downExtent x) (downPad x) = x := by
  unfold upExtent downExtent downPad
  omega

end OpenSoraPlan

namespace OpenSoraPlan

/-- C3: for an input latent of shape (2, 4, 9, 32, 32) with patch sizes
(1, 2, 2) and out_channels = 4, `OpenSoraT2V_v1_5.forward` returns a tensor
of shape (2, 4, 9, 32, 32) — batch, channel and the three volumetric extents
of the input are preserved — while the internal token sequence length is
9 * 16 * 16. -/
theorem c3_end_to_end_shape :
    forwardOutputShape 1 2 4 ⟨2, 4, 9, 32, 32⟩ = ⟨2, 4, 9, 32, 32⟩ ∧
    tokenSeqLen 1 2 ⟨2, 4, 9, 32, 32⟩ = 9 * 16 * 16 := by
  constructor <;> rfl

/-- C4: `OpenSoraT2V_v1_5` computes frame' = (f-1)//patch_size_t + 1 for odd
f and f//patch_size_t for even f, while `UDiTT2V.forward` rejects every odd
frame count with a fatal assertion and accepts every even one: the two model
families treat odd frame counts differently and neither silently unifies
them. -/
theorem c4_frame_rule (f pt : Nat) :
    (f % 2 = 1 → patchifyFrame pt f = (f - 1) / pt + 1) ∧
    (f % 2 = 0 → patchifyFrame pt f = f / pt) ∧
    (f % 2 = 1 → uditFrameCheck f = Except.error "AssertionError") ∧
    (f % 2 = 0 → uditFrameCheck f = Except.ok f) := by
  refine ⟨fun h => ?_, fun h => ?_, fun h => ?_, fun h => ?_⟩ <;>
    simp [patchifyFrame, uditFrameCheck, h]

/-- Witness for C4 at f = 9, pt = 1 (odd) and f = 8, pt = 2 (even). -/
theorem c4_frame_rule_witness :
    patchifyFrame 1 9 = 9 ∧ uditFrameCheck 9 = Except.error "AssertionError" ∧
    patchifyFrame 2 8 = 4 ∧ uditFrameCheck 8 = Except.ok 8 := by
  refine ⟨?_, (c4_frame_rule 9 1).2.2.1 (by decide), ?_, (c4_frame_rule 8 2).2.2.2 (by decide)⟩
  · exact (c4_frame_rule 9 1).1 (by decide)
  · exact (c4_frame_rule 8 2).2.1 (by decide)

/-- C5: one UDiT downsample records pad = extent % 2 and halves to
(extent + pad) / 2, and the mirrored upsample with the same recorded padding
restores the extent exactly; at height 7 and width 9 the pads are (1, 1),
the downsampled extents (4, 5), and the full two-level down/down/up/up chain
of `UDiTT2V.forward` restores (7, 9) — and indeed restores every extent pair
at both down/up pairs. -/
theorem c5_down_up_shape_inverse :
    downPad 7 = 1 ∧ downPad 9 = 1 ∧
    downExtent 7 = 4 ∧ downExtent 9 = 5 ∧
    upExtent (downExtent 7) (downPad 7) = 7 ∧
    upExtent (downExtent 9) (downPad 9) = 9 ∧
    uditSpatialRoundTrip 7 9 = (7, 9) ∧
    ∀ h w : Nat, uditSpatialRoundTrip h w = (h, w) := by
  refine ⟨rfl, rfl, rfl, rfl, rfl, rfl, rfl, fun h w => ?_⟩
  simp only [uditSpatialRoundTrip]
  rw [downUp_roundTrip, downUp_roundTrip, downUp_roundTrip, downUp_roundTrip]

/-- Helper for C9: whenever any of the three assert conditions is violated,
`checkStageConfig` returns an error. -/
theorem checkStageConfig_error (nl sn : List Nat)
    (h : nl.length ≠ sn.length ∨ nl.length % 2 ≠ 1 ∨
      ¬ (nl.all (fun i => i % 2 == 0) = true)) :
    ∃ e, checkStageConfig nl sn = Except.error e := by
  unfold checkStageConfig
  split
  next => exact ⟨_, rfl⟩
  next hc1 =>
    split
    next => exact ⟨_, rfl⟩
    next hc2 =>
      split
      next => exact ⟨_, rfl⟩
      next hc3 =>
        rcases h with h | h | h
        · exact absurd h hc1
        · exact absurd h hc2
        · exact absurd (not_not.mp hc3) h

/-- C9: constructing `OpenSoraT2V_v1_5` fails with an assertion error whenever
the num_layers and sparse_n lists differ in length, whenever num_layers has
even length, or whenever any per-stage block count is odd; every
configuration passing the three checks constructs with both lists unchanged. -/
theorem c9_config_validation (nl sn : List Nat) :
    (nl.length ≠ sn.length → ∃ e, checkStageConfig nl sn = Except.error e) ∧
    (nl.length % 2 = 0 → ∃ e, checkStageConfig nl sn = Except.error e) ∧
    ((∃ i ∈ nl, i % 2 = 1) → ∃ e, checkStageConfig nl sn = Except.error e) ∧
    (nl.length = sn.length → nl.length % 2 = 1 → (∀ i ∈ nl, i % 2 = 0) →
      checkStageConfig nl sn = Except.ok (nl, sn)) := by
  refine ⟨fun h => ?_, fun h => ?_, fun h => ?_, fun h1 h2 h3 => ?_⟩
  · exact checkStageConfig_error nl sn (Or.inl h)
  · exact checkStageConfig_error nl sn (Or.inr (Or.inl (by omega)))
  · obtain ⟨i, hi, hodd⟩ := h
    refine checkStageConfig_error nl sn (Or.inr (Or.inr ?_))
    simp only [List.all_eq_true, beq_iff_eq]
    intro hforall
    exact absurd (hforall i hi) (by omega)
  · have hall : nl.all (fun i => i % 2 == 0) = true := by
      simp only [List.all_eq_true, beq_iff_eq]
      exact h3
    unfold checkStageConfig
    rw [if_neg (not_not_intro h1), if_neg (by omega), if_neg (not_not_intro hall)]

/-- Witness for C9: an even-length list is rejected, a list of odd block
count is rejected, and the default [2, 4, 8, 4, 2] / [1, 4, 16, 4, 1]
configuration passes unchanged. -/
theorem c9_config_validation_witness :
    (∃ e, checkStageConfig [2, 4] [1, 4] = Except.error e) ∧
    (∃ e, checkStageConfig [2, 3, 2] [1, 4, 1] = Except.error e) ∧
    checkStageConfig [2, 4, 8, 4, 2] [1, 4, 16, 4, 1] =
      Except.ok ([2, 4, 8, 4, 2], [1, 4, 16, 4, 1]) := by
  refine ⟨(c9_config_validation [2, 4] [1, 4]).2.1 (by decide),
    (c9_config_validation [2, 3, 2] [1, 4, 1]).2.2.1 ⟨3, by decide, by decide⟩,
    (c9_config_validation [2, 4, 8, 4, 2] [1, 4, 16, 4, 1]).2.2.2 (by decide)
      (by decide) (by decide)⟩

/-- Helper: a true read through `frameAt` comes from a member frame. -/
theorem frameAt_true {frames : List (Nat → Nat → Bool)} {i hh ww : Nat}
    (h : frameAt frames i hh ww = true) : ∃ g ∈ frames, g hh ww = true := by
  unfold frameAt at h
  by_cases hi : i < frames.length
  · rw [List.getD_eq_getElem _ _ hi] at h
    exact ⟨_, List.getElem_mem _, h⟩
  · rw [List.getD_eq_default _ _ (Nat.le_of_not_lt hi)] at h
    simp at h

/-- C6: the keep-mask to additive-bias conversion, including the
max-pooling resize, sends an all-ones keep-mask to an all-zero bias, an
all-zeros keep-mask to a uniformly -10000 bias, and every entry of the
resulting bias is either 0 or -10000 — in particular an exact finite
integer. -/
theorem c6_mask_bias_values (pt p : Nat) (frames : List (Nat → Nat → Bool))
    (t h w : Nat) :
    (0 < pt → 0 < p → t * pt + pt ≤ frames.length →
      (∀ g ∈ frames, ∀ i j, g i j = true) →
      spatialBiasEntry pt p frames t h w = 0) ∧
    ((∀ g ∈ frames, ∀ i j, g i j = false) →
      spatialBiasEntry pt p frames t h w = -10000) ∧
    (spatialBiasEntry pt p frames t h w = 0 ∨
      spatialBiasEntry pt p frames t h w = -10000) := by
  refine ⟨fun hpt hp hlen hall => ?_, fun hnone => ?_, ?_⟩
  · have hkeep : pooledKeep pt p frames t h w = true := by
      unfold pooledKeep
      simp only [List.any_eq_true, List.mem_range]
      refine ⟨0, hpt, 0, hp, 0, hp, ?_⟩
      have hidx : t * pt + 0 < frames.length := by omega
      unfold frameAt
      rw [List.getD_eq_getElem _ _ hidx]
      exact hall _ (List.getElem_mem _) _ _
    simp [spatialBiasEntry, hkeep]
  · have hkeep : pooledKeep pt p frames t h w = false := by
      rw [Bool.eq_false_iff]
      intro htrue
      unfold pooledKeep at htrue
      simp only [List.any_eq_true, List.mem_range] at htrue
      obtain ⟨o, _, i, _, j, _, hval⟩ := htrue
      obtain ⟨g, hg, hgv⟩ := frameAt_true hval
      rw [hnone g hg] at hgv
      exact Bool.false_ne_true hgv
    simp [spatialBiasEntry, hkeep]
  · unfold spatialBiasEntry
    split
    · exact Or.inl rfl
    · exact Or.inr rfl

/-- Witness for C6 at pt = p = 1, with a single all-keep frame and a single
all-discard frame. -/
theorem c6_mask_bias_values_witness :
    spatialBiasEntry 1 1 [fun _ _ => true] 0 0 0 = 0 ∧
    spatialBiasEntry 1 1 [fun _ _ => false] 0 0 0 = -10000 := by
  constructor
  · exact (c6_mask_bias_values 1 1 [fun _ _ => true] 0 0 0).1 (by decide)
      (by decide) (by simp)
      (by intro g hg i j; simp only [List.mem_singleton] at hg; rw [hg])
  · exact (c6_mask_bias_values 1 1 [fun _ _ => false] 0 0 0).2.1
      (by intro g hg i j; simp only [List.mem_singleton] at hg; rw [hg])

/-- C7 counterexample: the text-conditioning mask does not receive the
frame-window slicing before its bias conversion — converting the whole mask
differs from converting the sliced mask already at a 3-entry mask with a
1-frame window. -/
theorem c7_counterexample_text_mask_not_sliced :
    encoderMaskToBias [1, 1, 1] ≠
      encoderMaskToBias (sliceFrameWindow false 1 1 [1, 1, 1]) := by
  decide

/-- C7 (amended): the spatial keep-mask's frame axis is sliced by the
world-size-aware frame window (first frame * world_size frames when
sharded, first frame frames otherwise) before max-pooling and bias
conversion — so the pipeline's output depends only on the sliced window —
while the text-conditioning mask receives no slicing: it is only converted
entrywise to a bias of unchanged length. -/
theorem c7_mask_slicing (sp : Bool) (ws frame pt p : Nat)
    (frames frames2 : List (Nat → Nat → Bool)) (t h w : Nat) (m : List Nat) :
    spatialMaskPipelineEntry sp ws frame pt p frames t h w =
      spatialBiasEntry pt p
        (if sp then frames.take (frame * ws) else frames.take frame) t h w ∧
    (sliceFrameWindow sp ws frame frames = sliceFrameWindow sp ws frame frames2 →
      spatialMaskPipelineEntry sp ws frame pt p frames t h w =
        spatialMaskPipelineEntry sp ws frame pt p frames2 t h w) ∧
    (encoderMaskToBias m).length = m.length := by
  refine ⟨?_, fun heq => ?_, ?_⟩
  · unfold spatialMaskPipelineEntry sliceFrameWindow
    cases sp <;> simp
  · unfold spatialMaskPipelineEntry
    rw [heq]
  · simp [encoderMaskToBias]

/-- Witness for C7 (amended): two masks agreeing on the one-frame window
produce the same bias entry even though they differ on the second frame. -/
theorem c7_mask_slicing_witness :
    spatialMaskPipelineEntry false 1 1 1 1
        [fun _ _ => true, fun _ _ => false] 0 0 0 =
      spatialMaskPipelineEntry false 1 1 1 1
        [fun _ _ => true, fun _ _ => true] 0 0 0 :=
  (c7_mask_slicing false 1 1 1 1
    [fun _ _ => true, fun _ _ => false] [fun _ _ => true, fun _ _ => true]
    0 0 0 []).2.1 rfl

/-- C8 (code defect): `forward` declares encoder_attention_mask optional
with default None and guards its conversion with an is-not-None check, but
the unconditional debug line 215 dereferences its .shape first, so a call
with the text mask omitted raises instead of returning a tensor; with a
mask supplied the conversion proceeds normally. -/
theorem c8_text_mask_none_raises :
    processEncoderMask none =
      Except.error "AttributeError: NoneType has no attribute shape" ∧
    processEncoderMask (some [1, 0]) = Except.ok (some [0, -10000]) :=
  ⟨rfl, rfl⟩

/-- Helper: the encoder stage loop appends exactly one skip entry per
stage. -/
theorem encStages_len {H B : Type} (apply : B → H → H)
    (stages : List (List B)) (h : H) :
    (encStages apply stages h).2.length = stages.length := by
  induction stages generalizing h with
  | nil => rfl
  | cons s rest ih => simp [encStages, ih]

/-- Helper: the decoder pops exactly from the end — given a stack whose
tail beyond `keep` has one entry per decoder stage, every pop succeeds and
exactly `keep` is left. -/
theorem decStages_pops {H B : Type} (apply : B → H → H) (combine : H → H → H)
    (stages : List (List B)) (h : H) (keep tail : List H)
    (hlen : tail.length = stages.length) :
    ∃ hf, decStages apply combine stages h (keep ++ tail) =
      Except.ok (hf, keep) := by
  induction stages generalizing h keep tail with
  | nil =>
    have : tail = [] := List.eq_nil_of_length_eq_zero hlen
    subst this
    exact ⟨h, by simp [decStages]⟩
  | cons s rest ih =>
    rcases tail.eq_nil_or_concat with rfl | ⟨tail2, x, rfl⟩
    · simp at hlen
    · simp only [List.concat_eq_append] at hlen ⊢
      have hlen2 : tail2.length = rest.length := by
        simpa using hlen
      have hpop : popLast (keep ++ (tail2 ++ [x])) =
          some (x, keep ++ tail2) := by
        unfold popLast
        rw [← List.append_assoc, List.getLast?_concat, List.dropLast_concat]
      refine Exists.imp (fun hf hd => ?_)
        (ih (runStage apply s (combine h x)) keep tail2 hlen2)
      rw [decStages, hpop]
      exact hd

/-- C2 counterexample: for the 3-stage configuration (k = 1) the encoder
phase performs 2 pushes, not 1, and after the decoder's last pop the stack
still holds the pre-encoder hidden state — it is never empty. -/
theorem c2_counterexample_stack_not_empty :
    forwardStack (fun (_ : Unit) (n : Nat) => n + 1) (fun a b => a + b)
      [[(), ()], [(), ()], [(), ()]] 0 = Except.ok (8, [0]) ∧
    (operateOnEnc (fun (_ : Unit) (n : Nat) => n + 1)
      (List.take 1 [[(), ()], [(), ()], [(), ()]]) 0).2.length = 2 := by
  exact ⟨rfl, rfl⟩

/-- C2 (amended): for every stage configuration of odd length 2k+1 with
k ≥ 1, the encoder phase performs k+1 pushes (the pre-encoder hidden state
plus one per encoder stage), the decoder phase performs exactly k pops, all
of them succeed, and after the last pop the stack holds exactly the
pre-encoder hidden state — one element, never empty. -/
theorem c2_stack_discipline {H B : Type} (apply : B → H → H)
    (combine : H → H → H) (blocks : List (List B)) (h : H) (k : Nat)
    (hk : 1 ≤ k) (hlen : blocks.length = 2 * k + 1) :
    (operateOnEnc apply (blocks.take k) h).2.length = k + 1 ∧
    ∃ hf, forwardStack apply combine blocks h = Except.ok (hf, [h]) := by
  have htake : (blocks.take k).length = k := by
    rw [List.length_take]
    omega
  constructor
  · show (h :: (encStages apply (blocks.take k) h).2).length = k + 1
    rw [List.length_cons, encStages_len, htake]
  · have hdiv : blocks.length / 2 = k := by omega
    have hslice : lastSlice (blocks.length / 2) blocks =
        blocks.drop (blocks.length - k) := by
      rw [hdiv]
      unfold lastSlice
      rw [if_neg (by omega)]
    have hdroplen : (blocks.drop (blocks.length - k)).length = k := by
      rw [List.length_drop]
      omega
    obtain ⟨hf, hd⟩ := decStages_pops apply combine
      (blocks.drop (blocks.length - k))
      (runStage apply (blocks.getD (blocks.length / 2) [])
        (operateOnEnc apply (blocks.take (blocks.length / 2)) h).1)
      [h] ((encStages apply (blocks.take k) h).2)
      (by rw [encStages_len, htake, hdroplen])
    refine ⟨hf, ?_⟩
    unfold forwardStack
    rw [hslice]
    rw [show (operateOnEnc apply (blocks.take (blocks.length / 2)) h).2 =
      [h] ++ (encStages apply (blocks.take k) h).2 from by rw [hdiv]; rfl]
    exact hd

/-- Witness for C2 (amended) at the 3-stage configuration with k = 1. -/
theorem c2_stack_discipline_witness :
    (operateOnEnc (fun (_ : Unit) (n : Nat) => n + 1)
      (List.take 1 [[(), ()], [(), ()], [(), ()]]) 0).2.length = 1 + 1 ∧
    ∃ hf, forwardStack (fun (_ : Unit) (n : Nat) => n + 1) (fun a b => a + b)
      [[(), ()], [(), ()], [(), ()]] 0 = Except.ok (hf, [0]) :=
  c2_stack_discipline (fun (_ : Unit) (n : Nat) => n + 1) (fun a b => a + b)
    [[(), ()], [(), ()], [(), ()]] 0 1 (by decide) (by decide)

/-- Helper: `(x * m + y) % m = y` when `y < m`. -/
theorem mulAdd_mod (x y m : Nat) (hy : y < m) : (x * m + y) % m = y := by
  rw [Nat.mul_comm, Nat.mul_add_mod, Nat.mod_eq_of_lt hy]

/-- Helper: `(x * m + y) / m = x` when `y < m`. -/
theorem mulAdd_div (x y m : Nat) (hy : y < m) : (x * m + y) / m = x := by
  rw [Nat.mul_comm, Nat.mul_add_div (by omega), Nat.div_eq_of_lt hy, Nat.add_zero]

/-- C1: the Output Head's unpatchify — the reshape to
(batch, t', h', w', pt, p, p, c), the permutation nthwopqc->nctohpwq and
the fold into (batch, c, t'*pt, h'*p, w'*p) — exactly inverts the Patch
Embedder's extraction order: every voxel of a latent of valid shape is
mapped back to its original (channel, time, height, width) position, i.e.
the composite position map is the identity. -/
theorem c1_unpatchify_inverts_patchify (g : PatchGrid) (ch τ η ω : Nat)
    (hch : ch < g.c) (hτ : τ < g.tT * g.pt) (hη : η < g.hT * g.ph)
    (hω : ω < g.wT * g.pw) :
    unpatchifyPos g (patchifyPos g ch τ η ω).1 (patchifyPos g ch τ η ω).2 =
      (ch, τ, η, ω) := by
  have hpt : 0 < g.pt := by
    rcases Nat.eq_zero_or_pos g.pt with h0 | h
    · rw [h0, Nat.mul_zero] at hτ
      omega
    · exact h
  have hph : 0 < g.ph := by
    rcases Nat.eq_zero_or_pos g.ph with h0 | h
    · rw [h0, Nat.mul_zero] at hη
      omega
    · exact h
  have hpw : 0 < g.pw := by
    rcases Nat.eq_zero_or_pos g.pw with h0 | h
    · rw [h0, Nat.mul_zero] at hω
      omega
    · exact h
  have hhT : 0 < g.hT := by
    rcases Nat.eq_zero_or_pos g.hT with h0 | h
    · rw [h0, Nat.zero_mul] at hη
      omega
    · exact h
  have hb : η / g.ph < g.hT := Nat.div_lt_of_lt_mul (Nat.mul_comm g.hT g.ph ▸ hη)
  have hd : ω / g.pw < g.wT := Nat.div_lt_of_lt_mul (Nat.mul_comm g.wT g.pw ▸ hω)
  have hq : ω % g.pw < g.pw := Nat.mod_lt _ hpw
  have hp : η % g.ph < g.ph := Nat.mod_lt _ hph
  unfold patchifyPos unpatchifyPos
  have hsmod : ((τ / g.pt * g.hT + η / g.ph) * g.wT + ω / g.pw) % g.wT =
      ω / g.pw := mulAdd_mod _ _ _ hd
  have hsdiv : ((τ / g.pt * g.hT + η / g.ph) * g.wT + ω / g.pw) / g.wT =
      τ / g.pt * g.hT + η / g.ph := mulAdd_div _ _ _ hd
  have hjmod : (((τ % g.pt * g.ph + η % g.ph) * g.pw + ω % g.pw) * g.c + ch)
      % g.c = ch := mulAdd_mod _ _ _ hch
  have hjdiv : (((τ % g.pt * g.ph + η % g.ph) * g.pw + ω % g.pw) * g.c + ch)
      / g.c = (τ % g.pt * g.ph + η % g.ph) * g.pw + ω % g.pw :=
    mulAdd_div _ _ _ hch
  simp only [Prod.mk.injEq]
  refine ⟨hjmod, ?_, ?_, ?_⟩
  · have h1 : ((τ / g.pt * g.hT + η / g.ph) * g.wT + ω / g.pw) /
        (g.hT * g.wT) = τ / g.pt := by
      rw [Nat.mul_comm g.hT g.wT, ← Nat.div_div_eq_div_mul, hsdiv]
      exact mulAdd_div _ _ _ hb
    have h2 : (((τ % g.pt * g.ph + η % g.ph) * g.pw + ω % g.pw) * g.c + ch) /
        (g.c * g.pw * g.ph) = τ % g.pt := by
      rw [← Nat.div_div_eq_div_mul, ← Nat.div_div_eq_div_mul, hjdiv,
        mulAdd_div _ _ _ hq]
      exact mulAdd_div _ _ _ hp
    rw [h1, h2, Nat.div_add_mod']
  · have h1 : ((τ / g.pt * g.hT + η / g.ph) * g.wT + ω / g.pw) / g.wT % g.hT =
        η / g.ph := by
      rw [hsdiv]
      exact mulAdd_mod _ _ _ hb
    have h2 : (((τ % g.pt * g.ph + η % g.ph) * g.pw + ω % g.pw) * g.c + ch) /
        (g.c * g.pw) % g.ph = η % g.ph := by
      rw [← Nat.div_div_eq_div_mul, hjdiv, mulAdd_div _ _ _ hq]
      exact mulAdd_mod _ _ _ hp
    rw [h1, h2, Nat.div_add_mod']
  · have h2 : (((τ % g.pt * g.ph + η % g.ph) * g.pw + ω % g.pw) * g.c + ch) /
        g.c % g.pw = ω % g.pw := by
      rw [hjdiv]
      exact mulAdd_mod _ _ _ hq
    rw [hsmod, h2, Nat.div_add_mod']

/-- Witness for C1 on a concrete 2x2x2 token grid with 2x2x2 patches and 2
channels, at voxel (channel 1, time 3, height 2, width 1). -/
theorem c1_unpatchify_inverts_patchify_witness :
    unpatchifyPos ⟨2, 2, 2, 2, 2, 2, 2⟩
        (patchifyPos ⟨2, 2, 2, 2, 2, 2, 2⟩ 1 3 2 1).1
        (patchifyPos ⟨2, 2, 2, 2, 2, 2, 2⟩ 1 3 2 1).2 = (1, 3, 2, 1) :=
  c1_unpatchify_inverts_patchify ⟨2, 2, 2, 2, 2, 2, 2⟩ 1 3 2 1
    (by decide) (by decide) (by decide) (by decide)

/-- C10: `AEModel.encode` and `AEModel.decode` delegate to the attribute
`model`, which `__init__` (storing the backbone only in `ae`) never
assigns; for every constructed instance and every backbone operation they
raise AttributeError instead of reaching the backbone. -/
theorem c10_aemodel_encode_decode_raise {α β : Type} (curVal : AEAttr → α)
    (enc dec : α → β) :
    aeModelEncode curVal enc =
      Except.error "AttributeError: AEModel object has no attribute model" ∧
    aeModelDecode curVal dec =
      Except.error "AttributeError: AEModel object has no attribute model" := by
  constructor <;> rfl

end OpenSoraPlan
